import Mathlib

/-!
Verification of the projection engine of the aussie-nestegg-planner
repository: the loan amortization/offset simulator (`calculateLoanSchedule`,
`calculateOffsetSavings`), the amortization calculator
(`calculateMonthlyPayment`, `calculatePresentValue`,
`calculateAfterTaxIncome`), the forecast aggregator (`runForecast`),
the stress transform (`applyStressTest`) and the milestone summarizer
(`generateSummary`).

Embedding conventions:
- Monetary amounts in cents are integers (`ℤ`); rates and intermediate
  arithmetic are exact rationals (`ℚ`).  JavaScript `Math.round` is
  `round : ℚ → ℤ` (both are `⌊x + 1/2⌋`).
- `Math.pow` with a fractional exponent, as used by the forecast
  aggregator for `(1+rate)^yearsElapsed`, is transcendental; it is
  modelled by an abstract oracle `rpow : ℚ → ℚ → ℚ` passed as the first
  argument of the forecast functions.  The loan engine only ever raises
  to non-negative integer exponents (`termYears*12` months), which are
  modelled by monoid powers.
- JavaScript `Date` objects carry no claim-relevant structure; dates are
  modelled as integer month offsets.  `Date.now()` inside
  `generateSummary` is impure and is modelled as an explicit `nowMs`
  parameter.
-/

/-- Terms of one loan (source interface `LoanDetails`).  `startDate` is a
month offset; `ioYears`/`termYears` are whole years as used by every
caller. -/
structure LoanDetails where
  id : String
  startDate : ℤ
  startBalanceCents : ℤ
  annualRate : ℚ
  ioYears : ℕ
  termYears : ℕ
  offsetStartCents : ℤ
  offsetContribMonthlyCents : ℤ
  allowRedraw : Bool
deriving DecidableEq

/-- One simulated month of a loan schedule (source interface `LoanMonth`). -/
structure LoanMonth where
  month : ℕ
  date : ℤ
  startingBalance : ℤ
  offsetBalance : ℤ
  effectiveBalance : ℤ
  interestCharged : ℤ
  principalPayment : ℤ
  totalPayment : ℤ
  endingBalance : ℤ
  isInterestOnly : Bool
deriving DecidableEq

/-- A complete loan schedule (source interface `LoanSchedule`). -/
structure LoanSchedule where
  loanId : String
  months : List LoanMonth
  totalInterest : ℤ
  totalPayments : ℤ
deriving DecidableEq

/-- Source `calculateMonthlyPayment` (constants module): fixed monthly
P&I payment.  `monthlyRate = annualRate/12`, `totalPayments =
termYears*12`; at zero monthly rate it short-circuits to straight-line
division, otherwise it applies the standard amortization formula.  The
`Math.pow` exponent `termYears*12` is a non-negative integer in every
call made by this repository, so it is modelled as a monoid power of the
floor of that rational. -/
def calculateMonthlyPayment (principalCents annualRate termYears : ℚ) : ℤ :=
  let monthlyRate := annualRate / 12
  let totalPayments := termYears * 12
  if monthlyRate = 0 then
    round (principalCents / totalPayments)
  else
    let n := (⌊totalPayments⌋).toNat
    round (principalCents * (monthlyRate * (1 + monthlyRate) ^ n) /
      ((1 + monthlyRate) ^ n - 1))

/-- Offset balance after the monthly contribution and the redraw clamp of
source `calculateLoanSchedule` (loop steps 1-2). -/
def offAfter (loan : LoanDetails) (bal off : ℤ) : ℤ :=
  if !loan.allowRedraw && decide (off + loan.offsetContribMonthlyCents > bal)
    then bal else off + loan.offsetContribMonthlyCents

/-- Effective balance of the month: loan balance minus offset, floored at
zero (loop step 3). -/
def effAfter (loan : LoanDetails) (bal off : ℤ) : ℤ :=
  max 0 (bal - offAfter loan bal off)

/-- Interest charged in the month: effective balance times the monthly
rate, rounded to the nearest cent (loop step 4). -/
def interestAfter (loan : LoanDetails) (bal off : ℤ) : ℤ :=
  round ((effAfter loan bal off : ℚ) * (loan.annualRate / 12))

/-- One iteration of the `for` loop of source `calculateLoanSchedule`,
entered with the balances at the start of `month`; `rem` is the number
of months still to simulate including this one, i.e. `months - month + 1`. -/
def loanMonthStep (loan : LoanDetails) (month rem : ℕ) (bal off : ℤ) : LoanMonth :=
  let off2 := offAfter loan bal off
  let effectiveBalance := effAfter loan bal off
  let interestCharged := interestAfter loan bal off
  let interestOnly := decide (month ≤ loan.ioYears * 12)
  if !interestOnly && decide (effectiveBalance > 0) then
    let piPayment := calculateMonthlyPayment (effectiveBalance : ℚ)
      loan.annualRate ((rem : ℚ) / 12)
    let p0 := piPayment - interestCharged
    let principalPayment := if p0 > bal then bal else p0
    let totalPayment := if p0 > bal then bal + interestCharged else piPayment
    { month := month, date := loan.startDate + month - 1,
      startingBalance := bal, offsetBalance := off2,
      effectiveBalance := effectiveBalance,
      interestCharged := interestCharged,
      principalPayment := principalPayment, totalPayment := totalPayment,
      endingBalance := bal - principalPayment, isInterestOnly := interestOnly }
  else
    { month := month, date := loan.startDate + month - 1,
      startingBalance := bal, offsetBalance := off2,
      effectiveBalance := effectiveBalance,
      interestCharged := interestCharged,
      principalPayment := 0, totalPayment := interestCharged,
      endingBalance := bal, isInterestOnly := interestOnly }

/-- The month loop of source `calculateLoanSchedule`: runs while
`month ≤ months && currentBalance > 0`, threading the balance and offset
through `loanMonthStep`.  `rem` counts the months left to the horizon. -/
def loanMonthsAux (loan : LoanDetails) : (rem month : ℕ) → (bal off : ℤ) → List LoanMonth
  | 0, _, _, _ => []
  | rem + 1, month, bal, off =>
    if bal ≤ 0 then []
    else
      let lm := loanMonthStep loan month (rem + 1) bal off
      lm :: loanMonthsAux loan rem (month + 1) lm.endingBalance lm.offsetBalance

/-- Source `calculateLoanSchedule`: full amortization/offset schedule for
one loan plus accumulated totals.  `months` defaults to the loan term in
months as in the source. -/
def calculateLoanSchedule (loan : LoanDetails)
    (months : ℕ := loan.termYears * 12) : LoanSchedule :=
  let ms := loanMonthsAux loan months 1 loan.startBalanceCents loan.offsetStartCents
  { loanId := loan.id, months := ms,
    totalInterest := (ms.map (·.interestCharged)).sum,
    totalPayments := (ms.map (·.totalPayment)).sum }

/-- The loan with its offset zeroed, as `calculateOffsetSavings` spreads
it inline in the source. -/
def noOffset (loan : LoanDetails) : LoanDetails :=
  { loan with offsetStartCents := 0, offsetContribMonthlyCents := 0 }

/-- Source `calculateOffsetSavings`: total interest of the schedule with
the offset zeroed minus total interest of the schedule as given. -/
def calculateOffsetSavings (loan : LoanDetails)
    (months : ℕ := loan.termYears * 12) : ℤ :=
  let withOffset := calculateLoanSchedule loan months
  let withoutOffset := calculateLoanSchedule (noOffset loan) months
  withoutOffset.totalInterest - withOffset.totalInterest

/-- One Australian tax bracket (constants module `AU_TAX_BRACKETS`); a
`none` upper bound models the source's `Infinity`. -/
structure TaxBracket where
  min : ℚ
  max : Option ℚ
  rate : ℚ
deriving DecidableEq

/-- Source `AU_TAX_BRACKETS`: the 2024-25 Australian tax brackets in cents. -/
def AU_TAX_BRACKETS : List TaxBracket :=
  [{ min := 0, max := some 1800000, rate := 0 },
   { min := 1800000, max := some 4500000, rate := 19 / 100 },
   { min := 4500000, max := some 12000000, rate := 325 / 1000 },
   { min := 12000000, max := some 18000000, rate := 37 / 100 },
   { min := 18000000, max := none, rate := 45 / 100 }]

/-- The bracket loop of source `calculateAfterTaxIncome`: folds the
brackets, breaking once no income remains; `min (remaining, max - min)`
is the whole remainder for the unbounded top bracket. -/
def taxLoop : List TaxBracket → ℚ → ℚ → ℚ
  | [], taxPayable, _ => taxPayable
  | b :: rest, taxPayable, remainingIncome =>
    if remainingIncome ≤ 0 then taxPayable
    else
      let taxableInThisBracket :=
        match b.max with
        | some mx => min remainingIncome (mx - b.min)
        | none => remainingIncome
      taxLoop rest (taxPayable + taxableInThisBracket * b.rate)
        (remainingIncome - taxableInThisBracket)

/-- Source `calculateAfterTaxIncome`: gross income minus bracket tax and
the Medicare levy, rounded. -/
def calculateAfterTaxIncome (grossIncomeCents medicareLevy : ℚ) : ℤ :=
  let taxPayable := taxLoop AU_TAX_BRACKETS 0 grossIncomeCents
  let medicareLevyTax := grossIncomeCents * medicareLevy
  round (grossIncomeCents - taxPayable - medicareLevyTax)

/-- Source `calculatePresentValue`: nominal value deflated by
`(1+cpiRate)^years` and rounded; the fractional-exponent `Math.pow` is
the abstract oracle `rpow`. -/
def calculatePresentValue (rpow : ℚ → ℚ → ℚ)
    (nominalValueCents cpiRate years : ℚ) : ℤ :=
  round (nominalValueCents / rpow (1 + cpiRate) years)

/-- Source interface `UserProfile`.  `dateOfBirth` is epoch milliseconds. -/
structure UserProfile where
  id : String
  name : String
  dateOfBirth : ℚ
  retirementAge : ℚ
  inflationCpiPa : ℚ
  wageGrowthPa : ℚ
  returnSuperPa : ℚ
  returnPortfolioPa : ℚ
  taxMarginalRate : ℚ
  medicareLevy : ℚ
  stateCode : String
deriving DecidableEq

/-- Source interface `Property`.  Dates are integer month offsets. -/
structure Property where
  id : String
  name : String
  purchasePriceCents : ℤ
  purchaseDate : ℤ
  valueNowCents : ℤ
  valueGrowthPa : ℚ
  costsFixedPaCents : ℤ
  maintenancePctOfValue : ℚ
  strataPaCents : ℤ
  ratesPaCents : ℤ
  insurancePaCents : ℤ
  landTaxPaCents : ℤ
  rentPwCents : ℤ
  vacancyWeeksPa : ℚ
  depreciationCapitalPaCents : ℤ
  depreciationPlantPaCents : ℤ
  becomesIpOn : Option ℤ
  becomesPporOn : Option ℤ
  soldOn : Option ℤ
deriving DecidableEq

/-- Source interface `ForecastMonth`: the per-month output record of the
forecast aggregator. -/
structure ForecastMonth where
  month : ℕ
  date : ℤ
  salaryAfterTax : ℚ
  rentalIncome : ℚ
  totalIncome : ℚ
  livingExpenses : ℚ
  propertyExpenses : ℚ
  loanPayments : ℚ
  totalExpenses : ℚ
  netCashflow : ℚ
  cashBuffer : ℚ
  propertyValues : ℚ
  superBalance : ℚ
  portfolioBalance : ℚ
  totalAssets : ℚ
  totalDebt : ℚ
  netWorth : ℚ
  netWorthPresentValue : ℚ
  passiveIncomeCapacity : ℚ
deriving DecidableEq

/-- Source interface `ForecastSummary`.  The TypeScript type promises a
`ForecastMonth` in every field, but at runtime an out-of-range index
yields `undefined`, modelled by `Option`. -/
structure ForecastSummary where
  now : Option ForecastMonth
  year10 : Option ForecastMonth
  year20 : Option ForecastMonth
  retirement : Option ForecastMonth
  year30 : Option ForecastMonth
deriving DecidableEq

/-- Source interface `Scenario`: the aggregate root fed to the forecast
aggregator and the stress transform. -/
structure Scenario where
  id : String
  userId : String
  name : String
  startDate : ℤ
  horizonYears : ℕ
  profile : UserProfile
  properties : List Property
  loans : List LoanDetails
  stressRateBumpPct : ℚ
  stressGrowthHaircutPct : ℚ
  stressVacancyWeeks : ℚ
  stressBorrowCapDownPct : ℚ
deriving DecidableEq

/-- One iteration of the month loop of source `runForecast`, entered with
the running cash buffer, super balance and portfolio balance.  `rpow`
abstracts `Math.pow` on fractional year exponents. -/
def forecastStep (rpow : ℚ → ℚ → ℚ) (s : Scenario)
    (cashBuffer superBalance portfolioBalance : ℚ) (month : ℕ) : ForecastMonth :=
  let yearsFromStart : ℚ := ((month : ℚ) - 1) / 12
  let monthlySalaryAfterTax : ℚ :=
    (calculateAfterTaxIncome 12000000 s.profile.medicareLevy : ℚ) / 12
  let adjustedSalary :=
    monthlySalaryAfterTax * rpow (1 + s.profile.wageGrowthPa) yearsFromStart
  let totalRentalIncome := (s.properties.map (fun property =>
    (property.rentPwCents : ℚ) * (52 - property.vacancyWeeksPa) / 12)).sum
  let totalIncome := adjustedSalary + totalRentalIncome
  let totalPropertyExpenses := (s.properties.map (fun property =>
    (((property.costsFixedPaCents + property.strataPaCents +
        property.ratesPaCents + property.insurancePaCents +
        property.landTaxPaCents : ℤ) : ℚ) +
      (property.valueNowCents : ℚ) *
        rpow (1 + property.valueGrowthPa) yearsFromStart *
        property.maintenancePctOfValue) / 12)).sum
  let totalLoanPayments := (s.loans.map (fun loan =>
    match (calculateLoanSchedule loan
        (min month (loan.termYears * 12))).months.get? (month - 1) with
    | some lm => (lm.totalPayment : ℚ)
    | none => 0)).sum
  let adjustedLivingExpenses :=
    (500000 : ℚ) * rpow (1 + s.profile.inflationCpiPa) yearsFromStart
  let totalExpenses :=
    adjustedLivingExpenses + totalPropertyExpenses + totalLoanPayments
  let netCashflow := totalIncome - totalExpenses
  let cashBuffer2 := cashBuffer + netCashflow
  let superBalance2 := superBalance * (1 + s.profile.returnSuperPa / 12)
  let totalPropertyValues := (s.properties.map (fun property =>
    (property.valueNowCents : ℚ) *
      rpow (1 + property.valueGrowthPa) yearsFromStart)).sum
  let totalDebt := (s.loans.map (fun loan =>
    match (calculateLoanSchedule loan
        (min month (loan.termYears * 12))).months.get? (month - 1) with
    | some lm => (lm.endingBalance : ℚ)
    | none => 0)).sum
  let totalAssets :=
    totalPropertyValues + superBalance2 + portfolioBalance + cashBuffer2
  let netWorth := totalAssets - totalDebt
  let netWorthPresentValue := (calculatePresentValue rpow netWorth
    s.profile.inflationCpiPa yearsFromStart : ℚ)
  let passiveIncomeCapacity := netWorthPresentValue * (4 / 100) / 12
  { month := month, date := s.startDate + month - 1,
    salaryAfterTax := adjustedSalary, rentalIncome := totalRentalIncome,
    totalIncome := totalIncome, livingExpenses := adjustedLivingExpenses,
    propertyExpenses := totalPropertyExpenses,
    loanPayments := totalLoanPayments, totalExpenses := totalExpenses,
    netCashflow := netCashflow, cashBuffer := cashBuffer2,
    propertyValues := totalPropertyValues, superBalance := superBalance2,
    portfolioBalance := portfolioBalance, totalAssets := totalAssets,
    totalDebt := totalDebt, netWorth := netWorth,
    netWorthPresentValue := netWorthPresentValue,
    passiveIncomeCapacity := passiveIncomeCapacity }

/-- The month loop of source `runForecast`, threading the running
balances; the fuel argument counts the months left to the horizon. -/
def runForecastAux (rpow : ℚ → ℚ → ℚ) (s : Scenario) :
    ℕ → ℕ → ℚ → ℚ → ℚ → List ForecastMonth
  | 0, _, _, _, _ => []
  | r + 1, month, cash, sup, port =>
    let fm := forecastStep rpow s cash sup port month
    fm :: runForecastAux rpow s r (month + 1) fm.cashBuffer fm.superBalance
      fm.portfolioBalance

/-- Source `runForecast`: months 1 to horizonYears*12, starting from the
hardcoded balances of the source ($10,000 cash buffer, $500,000 super,
zero portfolio). -/
def runForecast (rpow : ℚ → ℚ → ℚ) (s : Scenario) : List ForecastMonth :=
  runForecastAux rpow s (s.horizonYears * 12) 1 1000000 50000000 0

/-- Source `generateSummary`: milestone selection with `||` fallbacks.
`Date.now()` is the explicit `nowMs` parameter; `dateOfBirth` is epoch
milliseconds. -/
def generateSummary (forecast : List ForecastMonth) (retirementAge : ℚ)
    (dateOfBirth : ℚ) (nowMs : ℚ) : ForecastSummary :=
  let lastIdx := forecast.length - 1
  let now := forecast.get? 0
  let year10 := (forecast.get? 119).orElse (fun _ => forecast.get? lastIdx)
  let year20 := (forecast.get? 239).orElse (fun _ => forecast.get? lastIdx)
  let year30 := (forecast.get? 359).orElse (fun _ => forecast.get? lastIdx)
  let currentAge := (nowMs - dateOfBirth) / ((365.25 : ℚ) * 24 * 60 * 60 * 1000)
  let monthsToRetirement := max 0 ((retirementAge - currentAge) * 12)
  let retirement :=
    (forecast.get? (⌊monthsToRetirement⌋).toNat).orElse (fun _ => year30)
  { now := now, year10 := year10, year20 := year20,
    retirement := retirement, year30 := year30 }

/-- Source `applyStressTest`: bump every loan rate, haircut every property
growth rate, raise every vacancy to the stress floor; all other fields
are spread unchanged. -/
def applyStressTest (s : Scenario) : Scenario :=
  { s with
    loans := s.loans.map (fun loan =>
      { loan with annualRate := loan.annualRate + s.stressRateBumpPct / 100 }),
    properties := s.properties.map (fun property =>
      { property with
        valueGrowthPa := property.valueGrowthPa - s.stressGrowthHaircutPct / 100,
        vacancyWeeksPa := max property.vacancyWeeksPa s.stressVacancyWeeks }) }

/-- The loan of the end-to-end scenario of spec §8. -/
def specLoan : LoanDetails :=
  { id := "spec", startDate := 0, startBalanceCents := 77056100,
    annualRate := 6 / 100, ioYears := 2, termYears := 30,
    offsetStartCents := 5000000, offsetContribMonthlyCents := 200000,
    allowRedraw := true }

/-- A small concrete loan for instantiating the schedule invariants. -/
def w3Loan : LoanDetails :=
  { id := "w3", startDate := 0, startBalanceCents := 100000,
    annualRate := 0, ioYears := 0, termYears := 1,
    offsetStartCents := 2000, offsetContribMonthlyCents := 1000,
    allowRedraw := false }

/-- A concrete redraw-allowed loan whose offset exceeds its balance. -/
def redrawLoan : LoanDetails :=
  { id := "rd", startDate := 0, startBalanceCents := 500,
    annualRate := 0, ioYears := 1, termYears := 1,
    offsetStartCents := 1000, offsetContribMonthlyCents := 0,
    allowRedraw := true }

/-- A concrete offsetting loan for instantiating the savings bound. -/
def w5Loan : LoanDetails :=
  { id := "w5", startDate := 0, startBalanceCents := 240000,
    annualRate := 0, ioYears := 0, termYears := 2,
    offsetStartCents := 50000, offsetContribMonthlyCents := 1000,
    allowRedraw := false }

/-- The constant `Math.pow` oracle: growths and inflation factors all 1,
as at yearsFromStart = 0 or with zero rates. -/
def onePow : ℚ → ℚ → ℚ := fun _ _ => 1

/-- A demo profile with zero rate assumptions. -/
def demoProfile : UserProfile :=
  { id := "p", name := "demo", dateOfBirth := 0, retirementAge := 65,
    inflationCpiPa := 0, wageGrowthPa := 0, returnSuperPa := 0,
    returnPortfolioPa := 0, taxMarginalRate := 37 / 100,
    medicareLevy := 2 / 100, stateCode := "NSW" }

/-- A second profile, differing from `demoProfile` in every field the
spec says should drive income and balances. -/
def demoProfileB : UserProfile :=
  { demoProfile with
    id := "q"
    name := "other"
    dateOfBirth := 1000000
    retirementAge := 50
    taxMarginalRate := 45 / 100
    returnPortfolioPa := 8 / 100
    stateCode := "VIC" }

/-- A minimal scenario (no properties, no loans) on `demoProfile`. -/
def demoScn : Scenario :=
  { id := "s", userId := "u", name := "base", startDate := 0,
    horizonYears := 1, profile := demoProfile, properties := [], loans := [],
    stressRateBumpPct := 2, stressGrowthHaircutPct := 1,
    stressVacancyWeeks := 4, stressBorrowCapDownPct := 10 }

/-- The same scenario on the second profile. -/
def demoScnB : Scenario :=
  { demoScn with profile := demoProfileB }

/-- A trivial ForecastMonth record carrying only its month index. -/
def dummyFM (i : ℕ) : ForecastMonth :=
  { month := i, date := 0, salaryAfterTax := 0, rentalIncome := 0,
    totalIncome := 0, livingExpenses := 0, propertyExpenses := 0,
    loanPayments := 0, totalExpenses := 0, netCashflow := 0, cashBuffer := 0,
    propertyValues := 0, superBalance := 0, portfolioBalance := 0,
    totalAssets := 0, totalDebt := 0, netWorth := 0,
    netWorthPresentValue := 0, passiveIncomeCapacity := 0 }

/-- A 361-month forecast sequence of distinct records. -/
def demoForecast : List ForecastMonth := (List.range 361).map dummyFM

/-- A two-month forecast sequence. -/
def wForecast : List ForecastMonth := [dummyFM 0, dummyFM 1]

/-- Characterization of `round` used to evaluate roundings of concrete
rationals. -/
theorem round_eq_of {x : ℚ} {m : ℤ} (h1 : (m : ℚ) ≤ x + 1 / 2)
    (h2 : x + 1 / 2 < m + 1) : round x = m := by
  rw [round_eq]
  exact Int.floor_eq_iff.mpr ⟨h1, h2⟩

/-- Unfolding lemma for one iteration of the loan month loop when the
balance is still positive. -/
theorem loanMonthsAux_succ (loan : LoanDetails) (rem month : ℕ) (bal off : ℤ)
    (h : 0 < bal) :
    loanMonthsAux loan (rem + 1) month bal off =
      loanMonthStep loan month (rem + 1) bal off ::
        loanMonthsAux loan rem (month + 1)
          (loanMonthStep loan month (rem + 1) bal off).endingBalance
          (loanMonthStep loan month (rem + 1) bal off).offsetBalance := by
  rw [loanMonthsAux, if_neg (by omega)]

/-- Value of `loanMonthStep` during the interest-only period: principal
payment is zero and the total payment is the interest charged. -/
theorem loanMonthStep_io (loan : LoanDetails) (month rem : ℕ) (bal off : ℤ)
    (h : month ≤ loan.ioYears * 12) :
    loanMonthStep loan month rem bal off =
      { month := month, date := loan.startDate + month - 1,
        startingBalance := bal, offsetBalance := offAfter loan bal off,
        effectiveBalance := effAfter loan bal off,
        interestCharged := interestAfter loan bal off, principalPayment := 0,
        totalPayment := interestAfter loan bal off,
        endingBalance := bal, isInterestOnly := true } := by
  unfold loanMonthStep
  simp [h]

/-- C1: for the loan with startBalanceCents = 77,056,100, annualRate =
0.06, ioYears = 2, termYears = 30, offsetStartCents = 5,000,000,
offsetContribMonthlyCents = 200,000, allowRedraw = true, the first month
of `calculateLoanSchedule` has interestCharged = 359,281 cents,
principalPayment = 0 (interest-only), and totalPayment = 359,281. -/
theorem c1_first_month_of_spec_loan :
    ((calculateLoanSchedule specLoan).months.head?).map
      (fun m => (m.interestCharged, m.principalPayment, m.totalPayment)) =
      some (359281, 0, 359281) := by
  have h360 : specLoan.termYears * 12 = 359 + 1 := rfl
  have ho : offAfter specLoan 77056100 5000000 = 5200000 := by
    unfold offAfter
    norm_num [specLoan]
  have he : effAfter specLoan 77056100 5000000 = 71856100 := by
    unfold effAfter
    rw [ho, show (77056100 : ℤ) - 5200000 = 71856100 from by norm_num]
    exact max_eq_right (by norm_num)
  have hi : interestAfter specLoan 77056100 5000000 = 359281 := by
    unfold interestAfter
    rw [he, show ((71856100 : ℤ) : ℚ) * (specLoan.annualRate / 12) =
      359281 - 1 / 2 from by norm_num [specLoan]]
    exact round_eq_of (by norm_num) (by norm_num)
  unfold calculateLoanSchedule
  rw [h360, loanMonthsAux_succ _ _ _ _ _ (by decide)]
  rw [loanMonthStep_io _ _ _ _ _ (by decide)]
  simp only [List.head?_cons, Option.map_some']
  rw [show specLoan.startBalanceCents = 77056100 from rfl,
    show specLoan.offsetStartCents = 5000000 from rfl, hi]

/-- The starting balance recorded in a month is the balance the month was
entered with. -/
theorem step_startingBalance (loan : LoanDetails) (month rem : ℕ) (bal off : ℤ) :
    (loanMonthStep loan month rem bal off).startingBalance = bal := by
  simp only [loanMonthStep, apply_ite LoanMonth.startingBalance, ite_self]

/-- The offset balance recorded in a month is the contributed offset,
clamped to the balance when redraw is disallowed. -/
theorem step_offsetBalance (loan : LoanDetails) (month rem : ℕ) (bal off : ℤ) :
    (loanMonthStep loan month rem bal off).offsetBalance =
      offAfter loan bal off := by
  simp only [loanMonthStep, apply_ite LoanMonth.offsetBalance, ite_self]

/-- The effective balance recorded in a month is `effAfter`. -/
theorem step_effectiveBalance (loan : LoanDetails) (month rem : ℕ) (bal off : ℤ) :
    (loanMonthStep loan month rem bal off).effectiveBalance =
      effAfter loan bal off := by
  simp only [loanMonthStep, apply_ite LoanMonth.effectiveBalance, ite_self]

/-- The ending balance recorded in a month is the starting balance minus
the principal payment, in both payment modes. -/
theorem step_endingBalance (loan : LoanDetails) (month rem : ℕ) (bal off : ℤ) :
    (loanMonthStep loan month rem bal off).endingBalance =
      bal - (loanMonthStep loan month rem bal off).principalPayment := by
  simp only [loanMonthStep, apply_ite LoanMonth.endingBalance,
    apply_ite LoanMonth.principalPayment, apply_ite (fun z : ℤ => bal - z),
    sub_zero]

/-- The interest recorded in a month is `interestAfter`. -/
theorem step_interestCharged (loan : LoanDetails) (month rem : ℕ) (bal off : ℤ) :
    (loanMonthStep loan month rem bal off).interestCharged =
      interestAfter loan bal off := by
  simp only [loanMonthStep, apply_ite LoanMonth.interestCharged, ite_self]

/-- Every month record of the loan loop satisfies the balance identity and
the effective-balance bounds, provided the offset state is non-negative. -/
theorem loanMonthsAux_inv (loan : LoanDetails)
    (hoc : 0 ≤ loan.offsetContribMonthlyCents) :
    ∀ (rem month : ℕ) (bal off : ℤ), 0 ≤ off →
      ∀ r ∈ loanMonthsAux loan rem month bal off,
        r.endingBalance = r.startingBalance - r.principalPayment ∧
        0 ≤ r.effectiveBalance ∧ r.effectiveBalance ≤ r.startingBalance := by
  intro rem
  induction rem with
  | zero =>
    intro month bal off _ r hr
    simp [loanMonthsAux] at hr
  | succ n ih =>
    intro month bal off hoff r hr
    rw [loanMonthsAux] at hr
    by_cases hbal : bal ≤ 0
    · rw [if_pos hbal] at hr
      simp at hr
    · rw [if_neg hbal] at hr
      push_neg at hbal
      have hoffA : 0 ≤ offAfter loan bal off := by
        unfold offAfter
        split <;> omega
      have hoff2 : 0 ≤ (loanMonthStep loan month (n + 1) bal off).offsetBalance := by
        rw [step_offsetBalance]
        exact hoffA
      rcases List.mem_cons.mp hr with rfl | hr2
      · refine ⟨?_, ?_, ?_⟩
        · rw [step_endingBalance, step_startingBalance]
        · rw [step_effectiveBalance]
          exact le_max_left _ _
        · rw [step_effectiveBalance, step_startingBalance]
          exact max_le hbal.le (sub_le_self _ hoffA)
      · exact ih (month + 1) _ _ hoff2 r hr2

/-- C3: for every loan and every LoanMonth of `calculateLoanSchedule`,
endingBalance = startingBalance − principalPayment exactly,
effectiveBalance ≥ 0, and (under the LoanTerms preconditions on the cents
fields) effectiveBalance ≤ startingBalance. -/
theorem c3_schedule_invariants (loan : LoanDetails) (months : ℕ)
    (hsb : 0 ≤ loan.startBalanceCents)
    (hos : 0 ≤ loan.offsetStartCents)
    (hoc : 0 ≤ loan.offsetContribMonthlyCents) :
    ∀ r ∈ (calculateLoanSchedule loan months).months,
      r.endingBalance = r.startingBalance - r.principalPayment ∧
      0 ≤ r.effectiveBalance ∧ r.effectiveBalance ≤ r.startingBalance := by
  intro r hr
  exact loanMonthsAux_inv loan hoc months 1 loan.startBalanceCents
    loan.offsetStartCents hos r hr

/-- Witness for C3 at a concrete loan. -/
theorem c3_schedule_invariants_witness :
    (0 : ℤ) ≤ w3Loan.startBalanceCents ∧ (0 : ℤ) ≤ w3Loan.offsetStartCents ∧
    (0 : ℤ) ≤ w3Loan.offsetContribMonthlyCents ∧
    ∀ r ∈ (calculateLoanSchedule w3Loan 2).months,
      r.endingBalance = r.startingBalance - r.principalPayment ∧
      0 ≤ r.effectiveBalance ∧ r.effectiveBalance ≤ r.startingBalance :=
  ⟨by decide, by decide, by decide,
    c3_schedule_invariants w3Loan 2 (by decide) (by decide) (by decide)⟩

/-- Every month record of the loan loop keeps the offset at or below the
starting balance when redraw is disallowed. -/
theorem loanMonthsAux_clamp (loan : LoanDetails) (hrd : loan.allowRedraw = false) :
    ∀ (rem month : ℕ) (bal off : ℤ),
      ∀ r ∈ loanMonthsAux loan rem month bal off,
        r.offsetBalance ≤ r.startingBalance := by
  intro rem
  induction rem with
  | zero =>
    intro month bal off r hr
    simp [loanMonthsAux] at hr
  | succ n ih =>
    intro month bal off r hr
    rw [loanMonthsAux] at hr
    by_cases hbal : bal ≤ 0
    · rw [if_pos hbal] at hr
      simp at hr
    · rw [if_neg hbal] at hr
      rcases List.mem_cons.mp hr with rfl | hr2
      · rw [step_offsetBalance, step_startingBalance]
        unfold offAfter
        rw [hrd]
        simp only [Bool.not_false, Bool.true_and]
        split
        · exact le_refl _
        · next h => exact le_of_not_lt (by simpa using h)
      · exact ih (month + 1) _ _ r hr2

/-- C4: with allowRedraw = false the recorded offset balance never exceeds
the starting balance (clamp invariant); with allowRedraw = true no clamp
is applied, and the offset balance can exceed the loan balance, as a
concrete schedule shows. -/
theorem c4_offset_clamp :
    (∀ (loan : LoanDetails) (months : ℕ), loan.allowRedraw = false →
      ∀ r ∈ (calculateLoanSchedule loan months).months,
        r.offsetBalance ≤ r.startingBalance) ∧
    ∃ r ∈ (calculateLoanSchedule redrawLoan 1).months,
      r.startingBalance < r.offsetBalance := by
  constructor
  · intro loan months hrd r hr
    exact loanMonthsAux_clamp loan hrd months 1 loan.startBalanceCents
      loan.offsetStartCents r hr
  · refine ⟨loanMonthStep redrawLoan 1 1 500 1000, ?_, ?_⟩
    · show _ ∈ (loanMonthsAux redrawLoan 1 1 500 1000)
      rw [show (1 : ℕ) = 0 + 1 from rfl, loanMonthsAux_succ _ _ _ _ _ (by decide)]
      exact List.mem_cons_self _ _
    · rw [step_offsetBalance, step_startingBalance]
      norm_num [offAfter, redrawLoan]

/-- Rounding is monotone. -/
theorem round_monoQ {x y : ℚ} (h : x ≤ y) : round x ≤ round y := by
  rw [round_eq, round_eq]
  exact Int.floor_mono (by linarith)

/-- Rounding a non-negative rational gives a non-negative integer. -/
theorem round_nonnegQ {x : ℚ} (h : 0 ≤ x) : 0 ≤ round x := by
  have := round_monoQ h
  simpa using this

/-- The difference of two roundings is less than the difference of the
arguments plus one. -/
theorem round_diff_lt (x y : ℚ) : ((round x - round y : ℤ) : ℚ) < x - y + 1 := by
  rw [round_eq, round_eq]
  have h1 := Int.floor_le (x + 1 / 2)
  have h2 := Int.lt_floor_add_one (y + 1 / 2)
  push_cast
  push_cast at h1 h2
  linarith

/-- Rounding an integer multiple of a factor at most one stays at or
below the integer. -/
theorem round_mul_le_self (e : ℤ) (he : 0 ≤ e) {K : ℚ} (hK1 : K ≤ 1) :
    round ((e : ℚ) * K) ≤ e := by
  have h : (e : ℚ) * K ≤ (e : ℚ) :=
    mul_le_of_le_one_right (by exact_mod_cast he) hK1
  have := round_monoQ h
  simpa using this

/-- Spread of roundings of two integer multiples of a factor in [0, 1] is
at most the spread of the integers. -/
theorem round_mul_sub_le (e1 e0 : ℤ) (h : e1 ≤ e0) {K : ℚ} (hK0 : 0 ≤ K)
    (hK1 : K ≤ 1) :
    round ((e0 : ℚ) * K) - round ((e1 : ℚ) * K) ≤ e0 - e1 := by
  have hlt := round_diff_lt ((e0 : ℚ) * K) ((e1 : ℚ) * K)
  have hd : (0 : ℚ) ≤ ((e0 : ℤ) : ℚ) - ((e1 : ℤ) : ℚ) := by
    push_cast
    exact_mod_cast sub_nonneg.mpr h
  have h2 : ((e0 : ℚ) - e1) * K ≤ ((e0 : ℚ) - e1) :=
    mul_le_of_le_one_right hd hK1
  have h3 : ((round ((e0 : ℚ) * K) - round ((e1 : ℚ) * K) : ℤ) : ℚ) <
      ((e0 - e1 : ℤ) : ℚ) + 1 := by
    push_cast
    push_cast at hlt
    nlinarith [h2]
  exact Int.lt_add_one_iff.mp (by exact_mod_cast h3)

/-- Evaluation of `calculateMonthlyPayment` at a whole number of months,
as the loan loop always calls it. -/
theorem calcMP_nat (P a : ℚ) (r : ℕ) :
    calculateMonthlyPayment P a ((r : ℚ) / 12) =
      if a = 0 then round (P / (r : ℚ))
      else round (P * ((a / 12) * (1 + a / 12) ^ r) / ((1 + a / 12) ^ r - 1)) := by
  have h12 : ((r : ℚ) / 12) * 12 = (r : ℚ) := by field_simp
  have hz : (a / 12 = 0) = (a = 0) := by
    simp [div_eq_zero_iff]
  have hfl : (⌊((r : ℚ))⌋).toNat = r := by
    simp
  simp only [calculateMonthlyPayment, hz, h12, hfl]

/-- In the final scheduled month the amortization payment is exactly the
principal plus the rounded interest. -/
theorem calcMP_last (a : ℚ) (ha : a ≠ 0) (e : ℤ) :
    calculateMonthlyPayment (e : ℚ) a ((1 : ℚ) / 12) =
      e + round ((e : ℚ) * (a / 12)) := by
  have h1 : ((1 : ℕ) : ℚ) / 12 = (1 : ℚ) / 12 := by norm_num
  rw [← h1, calcMP_nat, if_neg ha]
  have hq : a / 12 ≠ 0 := by
    simp [div_eq_zero_iff, ha]
  have harg : (e : ℚ) * ((a / 12) * (1 + a / 12) ^ (1 : ℕ)) /
      ((1 + a / 12) ^ (1 : ℕ) - 1) = (e : ℚ) + (e : ℚ) * (a / 12) := by
    field_simp
    ring
  rw [harg, round_int_add]

/-- The amortization factor is at most one from the second-last scheduled
month on, for monthly rates up to one half. -/
theorem amort_factor_le_one {q : ℚ} (hq0 : 0 < q) (hq : q ≤ 1 / 2) {r : ℕ}
    (hr : 2 ≤ r) : q * (1 + q) ^ r / ((1 + q) ^ r - 1) ≤ 1 := by
  have hone : (1 : ℚ) < 1 + q := by linarith
  have hd : (0 : ℚ) < (1 + q) ^ r - 1 := by
    have := one_lt_pow₀ hone (by omega : r ≠ 0)
    linarith
  rw [div_le_one hd]
  have hp : (1 + q) ^ 2 ≤ (1 + q) ^ r := pow_le_pow_right₀ hone.le hr
  nlinarith [hp, sq_nonneg q]

/-- The amortization factor is non-negative. -/
theorem amort_factor_nonneg {q : ℚ} (hq0 : 0 < q) {r : ℕ} (hr : 1 ≤ r) :
    0 ≤ q * (1 + q) ^ r / ((1 + q) ^ r - 1) := by
  have hone : (1 : ℚ) < 1 + q := by linarith
  have hd : (0 : ℚ) < (1 + q) ^ r - 1 := by
    have := one_lt_pow₀ hone (by omega : r ≠ 0)
    linarith
  have hn : (0 : ℚ) ≤ q * (1 + q) ^ r := by positivity
  exact div_nonneg hn hd.le

/-- The re-amortized monthly payment never exceeds the effective balance
plus the rounded monthly interest. -/
theorem calcMP_le (a : ℚ) (ha0 : 0 ≤ a) (ha1 : a ≤ 1) (r : ℕ) (hr : 1 ≤ r)
    (e : ℤ) (he : 0 ≤ e) :
    calculateMonthlyPayment (e : ℚ) a ((r : ℚ) / 12) ≤
      e + round ((e : ℚ) * (a / 12)) := by
  rw [calcMP_nat]
  by_cases ha : a = 0
  · rw [if_pos ha, ha]
    have h1 : (e : ℚ) / (r : ℚ) ≤ (e : ℚ) := by
      apply div_le_self (by exact_mod_cast he)
      exact_mod_cast hr
    have h2 := round_monoQ h1
    simp only [round_intCast] at h2
    simp only [zero_div, mul_zero, round_zero, add_zero]
    exact h2
  · rw [if_neg ha]
    have hapos : 0 < a := lt_of_le_of_ne ha0 (Ne.symm ha)
    have hq0 : 0 < a / 12 := by positivity
    have hq2 : a / 12 ≤ 1 / 2 := by linarith
    have hint : 0 ≤ round ((e : ℚ) * (a / 12)) :=
      round_nonnegQ (mul_nonneg (by exact_mod_cast he) (by positivity))
    rcases eq_or_lt_of_le hr with h1 | h2
    · rw [← h1]
      have harg : (e : ℚ) * (a / 12 * (1 + a / 12) ^ (1 : ℕ)) /
          ((1 + a / 12) ^ (1 : ℕ) - 1) = (e : ℚ) + (e : ℚ) * (a / 12) := by
        have hne : a / 12 ≠ 0 := hq0.ne'
        field_simp
        ring
      rw [harg, round_int_add]
    · have harg : (e : ℚ) * (a / 12 * (1 + a / 12) ^ r) /
          ((1 + a / 12) ^ r - 1) =
          (e : ℚ) * (a / 12 * (1 + a / 12) ^ r / ((1 + a / 12) ^ r - 1)) :=
        mul_div_assoc _ _ _
      rw [harg]
      have hK1 := amort_factor_le_one hq0 hq2 (by omega : 2 ≤ r)
      have h3 := round_mul_le_self e he hK1
      omega

/-- Between two effective balances, the difference of the re-amortized
principal payments is at most the difference of the balances. -/
theorem principal_diff_le (a : ℚ) (ha0 : 0 ≤ a) (ha1 : a ≤ 1) (r : ℕ)
    (hr : 1 ≤ r) (e1 e0 : ℤ) (h1 : 0 ≤ e1) (h10 : e1 ≤ e0) :
    (calculateMonthlyPayment (e0 : ℚ) a ((r : ℚ) / 12) -
        round ((e0 : ℚ) * (a / 12))) -
      (calculateMonthlyPayment (e1 : ℚ) a ((r : ℚ) / 12) -
        round ((e1 : ℚ) * (a / 12))) ≤ e0 - e1 := by
  by_cases ha : a = 0
  · rw [calcMP_nat, calcMP_nat, if_pos ha, if_pos ha, ha]
    simp only [zero_div, mul_zero, round_zero, sub_zero]
    have hK0 : (0 : ℚ) ≤ ((r : ℚ))⁻¹ := by positivity
    have hK1 : ((r : ℚ))⁻¹ ≤ 1 := by
      apply inv_le_one_of_one_le₀
      exact_mod_cast hr
    rw [div_eq_mul_inv, div_eq_mul_inv]
    exact round_mul_sub_le e1 e0 h10 hK0 hK1
  · have hapos : 0 < a := lt_of_le_of_ne ha0 (Ne.symm ha)
    have hq0 : 0 < a / 12 := by positivity
    have hq2 : a / 12 ≤ 1 / 2 := by linarith
    rcases eq_or_lt_of_le hr with hreq | hr2
    · rw [← hreq, Nat.cast_one, calcMP_last a ha e0, calcMP_last a ha e1]
      omega
    · rw [calcMP_nat, calcMP_nat, if_neg ha, if_neg ha]
      have hK1 := amort_factor_le_one hq0 hq2 (by omega : 2 ≤ r)
      have hK0 := amort_factor_nonneg hq0 hr
      have harg0 : (e0 : ℚ) * (a / 12 * (1 + a / 12) ^ r) /
          ((1 + a / 12) ^ r - 1) =
          (e0 : ℚ) * (a / 12 * (1 + a / 12) ^ r / ((1 + a / 12) ^ r - 1)) :=
        mul_div_assoc _ _ _
      have harg1 : (e1 : ℚ) * (a / 12 * (1 + a / 12) ^ r) /
          ((1 + a / 12) ^ r - 1) =
          (e1 : ℚ) * (a / 12 * (1 + a / 12) ^ r / ((1 + a / 12) ^ r - 1)) :=
        mul_div_assoc _ _ _
      rw [harg0, harg1]
      have hpay := round_mul_sub_le e1 e0 h10 hK0 hK1
      have hintmono : round ((e1 : ℚ) * (a / 12)) ≤
          round ((e0 : ℚ) * (a / 12)) :=
        round_monoQ (mul_le_mul_of_nonneg_right (by exact_mod_cast h10)
          hq0.le)
      omega

/-- During the interest-only period no principal is paid. -/
theorem step_principal_io (loan : LoanDetails) (month rem : ℕ) (bal off : ℤ)
    (h : month ≤ loan.ioYears * 12) :
    (loanMonthStep loan month rem bal off).principalPayment = 0 := by
  rw [loanMonthStep_io _ _ _ _ _ h]

/-- With a non-positive effective balance no principal is paid. -/
theorem step_principal_of_nonpos (loan : LoanDetails) (month rem : ℕ)
    (bal off : ℤ) (h : effAfter loan bal off ≤ 0) :
    (loanMonthStep loan month rem bal off).principalPayment = 0 := by
  simp only [loanMonthStep, apply_ite LoanMonth.principalPayment]
  rw [if_neg]
  intro hcond
  rw [Bool.and_eq_true] at hcond
  have := of_decide_eq_true hcond.2
  omega

/-- Principal paid in a principal-and-interest month with positive
effective balance: the re-amortized payment minus the interest, clamped
at the remaining balance. -/
theorem step_principal_pi (loan : LoanDetails) (month rem : ℕ) (bal off : ℤ)
    (hio : ¬ month ≤ loan.ioYears * 12) (heff : 0 < effAfter loan bal off) :
    (loanMonthStep loan month rem bal off).principalPayment =
      if calculateMonthlyPayment ((effAfter loan bal off : ℤ) : ℚ)
            loan.annualRate ((rem : ℚ) / 12) - interestAfter loan bal off > bal
        then bal
        else calculateMonthlyPayment ((effAfter loan bal off : ℤ) : ℚ)
            loan.annualRate ((rem : ℚ) / 12) - interestAfter loan bal off := by
  simp only [loanMonthStep, apply_ite LoanMonth.principalPayment]
  rw [if_pos (by simp [hio, heff])]

/-- The loan with its offset zeroed keeps a zero offset state. -/
theorem offAfter_noOffset (loan : LoanDetails) (bal : ℤ) (hb : 0 < bal) :
    offAfter (noOffset loan) bal 0 = 0 := by
  unfold offAfter noOffset
  have h : ¬((0 : ℤ) + 0 > bal) := by omega
  simp [h]
  intro _ h2
  omega

/-- Without an offset the effective balance is the full balance. -/
theorem effAfter_noOffset (loan : LoanDetails) (bal : ℤ) (hb : 0 < bal) :
    effAfter (noOffset loan) bal 0 = bal := by
  unfold effAfter
  rw [offAfter_noOffset loan bal hb]
  simp [max_eq_right hb.le]

/-- Interest accrued by the loan loop is never negative. -/
theorem interest_sum_nonneg (loan : LoanDetails) (ha0 : 0 ≤ loan.annualRate) :
    ∀ (rem month : ℕ) (bal off : ℤ),
      0 ≤ ((loanMonthsAux loan rem month bal off).map (·.interestCharged)).sum := by
  intro rem
  induction rem with
  | zero =>
    intro month bal off
    simp [loanMonthsAux]
  | succ n ih =>
    intro month bal off
    by_cases hbal : bal ≤ 0
    · rw [loanMonthsAux, if_pos hbal]
      simp
    · push_neg at hbal
      rw [loanMonthsAux_succ _ _ _ _ _ hbal]
      simp only [List.map_cons, List.sum_cons]
      have heff : (0 : ℤ) ≤ effAfter loan bal off := by
        unfold effAfter
        exact le_max_left _ _
      have h1 : 0 ≤ (loanMonthStep loan month (n + 1) bal off).interestCharged := by
        rw [step_interestCharged]
        unfold interestAfter
        apply round_nonnegQ
        apply mul_nonneg (by exact_mod_cast heff) (by positivity)
      exact add_nonneg h1 (ih _ _ _)

/-- Once the balance is covered by the offset the loop accrues no more
interest. -/
theorem interest_sum_zero (loan : LoanDetails) (ha0 : 0 ≤ loan.annualRate)
    (hc : 0 ≤ loan.offsetContribMonthlyCents) :
    ∀ (rem month : ℕ) (bal off : ℤ), 0 ≤ off → bal ≤ off →
      ((loanMonthsAux loan rem month bal off).map (·.interestCharged)).sum = 0 := by
  intro rem
  induction rem with
  | zero =>
    intro month bal off _ _
    simp [loanMonthsAux]
  | succ n ih =>
    intro month bal off hoff hbo
    by_cases hbal : bal ≤ 0
    · rw [loanMonthsAux, if_pos hbal]
      simp
    · push_neg at hbal
      rw [loanMonthsAux_succ _ _ _ _ _ hbal]
      simp only [List.map_cons, List.sum_cons]
      have hcases : offAfter loan bal off = bal ∨
          offAfter loan bal off = off + loan.offsetContribMonthlyCents := by
        unfold offAfter
        split
        · exact Or.inl rfl
        · exact Or.inr rfl
      have hge : bal ≤ offAfter loan bal off := by
        rcases hcases with h | h <;> omega
      have heff0 : effAfter loan bal off = 0 := by
        unfold effAfter
        exact max_eq_left (by omega)
      have hi0 : (loanMonthStep loan month (n + 1) bal off).interestCharged = 0 := by
        rw [step_interestCharged]
        unfold interestAfter
        rw [heff0]
        simp
      have hp0 : (loanMonthStep loan month (n + 1) bal off).principalPayment = 0 :=
        step_principal_of_nonpos _ _ _ _ _ (by omega)
      have hend : (loanMonthStep loan month (n + 1) bal off).endingBalance = bal := by
        rw [step_endingBalance, hp0]
        omega
      rw [hi0, step_offsetBalance, hend,
        ih (month + 1) bal (offAfter loan bal off)
          (by rcases hcases with h | h <;> omega) hge]
      simp

/-- Core comparison: with the invariant that the offset-run balance net of
its offset never exceeds the no-offset balance, the offset run accrues at
most the interest of the no-offset run, month by month. -/
theorem interest_le_aux (loan : LoanDetails) (ha0 : 0 ≤ loan.annualRate)
    (ha1 : loan.annualRate ≤ 1) (hc : 0 ≤ loan.offsetContribMonthlyCents) :
    ∀ (rem month : ℕ) (bal0 bal1 off : ℤ), 0 ≤ off → bal1 - off ≤ bal0 →
      ((loanMonthsAux loan rem month bal1 off).map (·.interestCharged)).sum ≤
        ((loanMonthsAux (noOffset loan) rem month bal0 0).map
          (·.interestCharged)).sum := by
  intro rem
  induction rem with
  | zero =>
    intro month bal0 bal1 off _ _
    simp [loanMonthsAux]
  | succ n ih =>
    intro month bal0 bal1 off hoff hinv
    by_cases hb0 : bal0 ≤ 0
    · rw [show loanMonthsAux (noOffset loan) (n + 1) month bal0 0 = [] from by
        rw [loanMonthsAux, if_pos hb0]]
      rw [interest_sum_zero loan ha0 hc (n + 1) month bal1 off hoff (by omega)]
      simp
    · push_neg at hb0
      by_cases hb1 : bal1 ≤ 0
      · rw [show loanMonthsAux loan (n + 1) month bal1 off = [] from by
          rw [loanMonthsAux, if_pos hb1]]
        simpa using interest_sum_nonneg (noOffset loan) ha0 (n + 1) month bal0 0
      · push_neg at hb1
        rw [loanMonthsAux_succ _ _ _ _ _ hb1, loanMonthsAux_succ _ _ _ _ _ hb0]
        simp only [List.map_cons, List.sum_cons]
        have hL0rate : (noOffset loan).annualRate = loan.annualRate := rfl
        have hoffL0 : (loanMonthStep (noOffset loan) month (n + 1) bal0 0).offsetBalance
            = 0 := by
          rw [step_offsetBalance]
          exact offAfter_noOffset loan bal0 hb0
        have heffL0 : effAfter (noOffset loan) bal0 0 = bal0 :=
          effAfter_noOffset loan bal0 hb0
        have hcases : offAfter loan bal1 off = bal1 ∨
            offAfter loan bal1 off = off + loan.offsetContribMonthlyCents := by
          unfold offAfter
          split
          · exact Or.inl rfl
          · exact Or.inr rfl
        have ho2 : 0 ≤ offAfter loan bal1 off := by
          rcases hcases with h | h <;> omega
        have hoff1 : (loanMonthStep loan month (n + 1) bal1 off).offsetBalance =
            offAfter loan bal1 off := step_offsetBalance _ _ _ _ _
        have he1le : effAfter loan bal1 off ≤ bal0 := by
          unfold effAfter
          apply max_le hb0.le
          rcases hcases with h | h <;> omega
        have he1nn : 0 ≤ effAfter loan bal1 off := by
          unfold effAfter
          exact le_max_left _ _
        have hintL0 : interestAfter (noOffset loan) bal0 0 =
            round (((bal0 : ℤ) : ℚ) * (loan.annualRate / 12)) := by
          unfold interestAfter
          rw [heffL0, hL0rate]
        have hint : (loanMonthStep loan month (n + 1) bal1 off).interestCharged ≤
            (loanMonthStep (noOffset loan) month (n + 1) bal0 0).interestCharged := by
          rw [step_interestCharged, step_interestCharged, hintL0]
          unfold interestAfter
          apply round_monoQ
          apply mul_le_mul_of_nonneg_right _ (by positivity)
          exact_mod_cast he1le
        by_cases hio : month ≤ loan.ioYears * 12
        · have hp1 : (loanMonthStep loan month (n + 1) bal1 off).principalPayment
              = 0 := step_principal_io _ _ _ _ _ hio
          have hp0 : (loanMonthStep (noOffset loan) month (n + 1) bal0
              0).principalPayment = 0 := step_principal_io _ _ _ _ _ hio
          have hend1 : (loanMonthStep loan month (n + 1) bal1 off).endingBalance
              = bal1 := by
            rw [step_endingBalance, hp1]
            omega
          have hend0 : (loanMonthStep (noOffset loan) month (n + 1) bal0
              0).endingBalance = bal0 := by
            rw [step_endingBalance, hp0]
            omega
          rw [hoff1, hoffL0, hend1, hend0]
          apply add_le_add hint
          apply ih (month + 1) bal0 bal1 (offAfter loan bal1 off) ho2
          rcases hcases with h | h <;> omega
        · have heffL0pos : 0 < effAfter (noOffset loan) bal0 0 := by
            rw [heffL0]
            exact hb0
          have hp0 := step_principal_pi (noOffset loan) month (n + 1) bal0 0
            hio heffL0pos
          rw [heffL0, hL0rate, hintL0] at hp0
          have hpi0le := calcMP_le loan.annualRate ha0 ha1 (n + 1) (by omega)
            bal0 hb0.le
          by_cases he1 : effAfter loan bal1 off ≤ 0
          · have he1z : effAfter loan bal1 off = 0 := le_antisymm he1 he1nn
            have hx : bal1 - offAfter loan bal1 off ≤ 0 := by
              have h := le_max_right 0 (bal1 - offAfter loan bal1 off)
              unfold effAfter at he1z
              omega
            have hp1 : (loanMonthStep loan month (n + 1) bal1 off).principalPayment
                = 0 := step_principal_of_nonpos _ _ _ _ _ he1
            have hend1 : (loanMonthStep loan month (n + 1) bal1 off).endingBalance
                = bal1 := by
              rw [step_endingBalance, hp1]
              omega
            rw [hoff1, hoffL0, hend1,
              step_endingBalance (noOffset loan) month (n + 1) bal0 0, hp0]
            apply add_le_add hint
            apply ih (month + 1) _ bal1 (offAfter loan bal1 off) ho2
            split
            · omega
            · omega
          · push_neg at he1
            have hp1 := step_principal_pi loan month (n + 1) bal1 off hio he1
            have hi1eq : interestAfter loan bal1 off =
                round (((effAfter loan bal1 off : ℤ) : ℚ) *
                  (loan.annualRate / 12)) := rfl
            have he1eq : effAfter loan bal1 off = bal1 - offAfter loan bal1 off := by
              have hx : 0 < bal1 - offAfter loan bal1 off := by
                by_contra hx
                push_neg at hx
                have h0 : effAfter loan bal1 off = 0 := by
                  unfold effAfter
                  exact max_eq_left hx
                omega
              unfold effAfter
              exact max_eq_right hx.le
            have hdiff := principal_diff_le loan.annualRate ha0 ha1 (n + 1)
              (by omega) (effAfter loan bal1 off) bal0 he1nn he1le
            rw [hi1eq] at hp1
            rw [hoff1, hoffL0,
              step_endingBalance loan month (n + 1) bal1 off, hp1,
              step_endingBalance (noOffset loan) month (n + 1) bal0 0, hp0]
            apply add_le_add hint
            apply ih (month + 1) _ _ (offAfter loan bal1 off) ho2
            split_ifs <;> omega

/-- C5: for every loan within the LoanTerms field ranges (rate a 0-1
fraction, non-negative offset fields) that has a positive starting offset
or a positive monthly offset contribution, and every month count,
`calculateOffsetSavings` is non-negative: zeroing the offset never
decreases the total interest, despite per-month cent rounding and
re-amortization. -/
theorem c5_offset_savings_nonneg (loan : LoanDetails) (months : ℕ)
    (ha0 : 0 ≤ loan.annualRate) (ha1 : loan.annualRate ≤ 1)
    (hos : 0 ≤ loan.offsetStartCents)
    (hoc : 0 ≤ loan.offsetContribMonthlyCents)
    (hpos : 0 < loan.offsetStartCents ∨ 0 < loan.offsetContribMonthlyCents) :
    0 ≤ calculateOffsetSavings loan months := by
  have h := interest_le_aux loan ha0 ha1 hoc months 1 loan.startBalanceCents
    loan.startBalanceCents loan.offsetStartCents hos (by omega)
  have hgoal : calculateOffsetSavings loan months =
      ((loanMonthsAux (noOffset loan) months 1 loan.startBalanceCents 0).map
        (·.interestCharged)).sum -
      ((loanMonthsAux loan months 1 loan.startBalanceCents
        loan.offsetStartCents).map (·.interestCharged)).sum := rfl
  rw [hgoal]
  omega

/-- Witness for C5 at a concrete loan with offset. -/
theorem c5_offset_savings_nonneg_witness :
    (0 : ℚ) ≤ w5Loan.annualRate ∧ w5Loan.annualRate ≤ 1 ∧
    (0 : ℤ) ≤ w5Loan.offsetStartCents ∧
    (0 : ℤ) ≤ w5Loan.offsetContribMonthlyCents ∧
    (0 < w5Loan.offsetStartCents ∨ 0 < w5Loan.offsetContribMonthlyCents) ∧
    0 ≤ calculateOffsetSavings w5Loan 24 :=
  ⟨le_refl 0, zero_le_one, by decide, by decide, Or.inl (by decide),
    c5_offset_savings_nonneg w5Loan 24 (le_refl 0) zero_le_one (by decide)
      (by decide) (Or.inl (by decide))⟩

/-- C8: at zero annual rate, `calculateMonthlyPayment` takes the
straight-line branch and returns `round (P / n)` with `n = termYears*12`
exactly; the amortization-formula branch is never evaluated. -/
theorem c8_zero_rate_straight_line (P termYears : ℚ)
    (hP : 0 ≤ P) (hn : 1 ≤ termYears * 12) :
    calculateMonthlyPayment P 0 termYears = round (P / (termYears * 12)) := by
  unfold calculateMonthlyPayment
  norm_num

/-- Witness for C8 at P = 120000 cents and a 1-year term. -/
theorem c8_zero_rate_straight_line_witness :
    calculateMonthlyPayment 120000 0 1 = round ((120000 : ℚ) / (1 * 12)) :=
  c8_zero_rate_straight_line 120000 1 (by norm_num) (by norm_num)

/-- C6: applyStressTest bumps every loan rate by stressRateBumpPct/100,
haircuts every property growth by stressGrowthHaircutPct/100, raises
every vacancy to max(current, stressVacancyWeeks), leaves every other
field of the scenario, its loans and its properties unchanged, and
stressBorrowCapDownPct has no effect beyond being copied.  The embedding
is pure, so the input scenario is never mutated. -/
theorem c6_stress_transform (s : Scenario) :
    (applyStressTest s).loans.map (·.annualRate) =
        s.loans.map (fun loan => loan.annualRate + s.stressRateBumpPct / 100) ∧
    (applyStressTest s).loans.map (fun l =>
        (l.id, l.startDate, l.startBalanceCents, l.ioYears, l.termYears,
          l.offsetStartCents, l.offsetContribMonthlyCents, l.allowRedraw)) =
      s.loans.map (fun l =>
        (l.id, l.startDate, l.startBalanceCents, l.ioYears, l.termYears,
          l.offsetStartCents, l.offsetContribMonthlyCents, l.allowRedraw)) ∧
    (applyStressTest s).properties.map (·.valueGrowthPa) =
        s.properties.map (fun p =>
          p.valueGrowthPa - s.stressGrowthHaircutPct / 100) ∧
    (applyStressTest s).properties.map (·.vacancyWeeksPa) =
        s.properties.map (fun p =>
          max p.vacancyWeeksPa s.stressVacancyWeeks) ∧
    (applyStressTest s).properties.map (fun p =>
        (p.id, p.name, p.purchasePriceCents, p.purchaseDate, p.valueNowCents,
          p.costsFixedPaCents, p.maintenancePctOfValue, p.strataPaCents,
          p.ratesPaCents, p.insurancePaCents, p.landTaxPaCents, p.rentPwCents,
          p.depreciationCapitalPaCents, p.depreciationPlantPaCents,
          p.becomesIpOn, p.becomesPporOn, p.soldOn)) =
      s.properties.map (fun p =>
        (p.id, p.name, p.purchasePriceCents, p.purchaseDate, p.valueNowCents,
          p.costsFixedPaCents, p.maintenancePctOfValue, p.strataPaCents,
          p.ratesPaCents, p.insurancePaCents, p.landTaxPaCents, p.rentPwCents,
          p.depreciationCapitalPaCents, p.depreciationPlantPaCents,
          p.becomesIpOn, p.becomesPporOn, p.soldOn)) ∧
    (applyStressTest s).id = s.id ∧
    (applyStressTest s).userId = s.userId ∧
    (applyStressTest s).name = s.name ∧
    (applyStressTest s).startDate = s.startDate ∧
    (applyStressTest s).horizonYears = s.horizonYears ∧
    (applyStressTest s).profile = s.profile ∧
    (applyStressTest s).stressRateBumpPct = s.stressRateBumpPct ∧
    (applyStressTest s).stressGrowthHaircutPct = s.stressGrowthHaircutPct ∧
    (applyStressTest s).stressVacancyWeeks = s.stressVacancyWeeks ∧
    (applyStressTest s).stressBorrowCapDownPct = s.stressBorrowCapDownPct ∧
    (∀ x : ℚ, applyStressTest { s with stressBorrowCapDownPct := x } =
      { applyStressTest s with stressBorrowCapDownPct := x }) := by
  refine ⟨?_, ?_, ?_, ?_, ?_, rfl, rfl, rfl, rfl, rfl, rfl, rfl, rfl, rfl,
    rfl, ?_⟩ <;>
    simp [applyStressTest]

/-- Every record of the forecast loop run with a zero portfolio state
keeps a zero portfolio and satisfies the asset identity. -/
theorem runForecastAux_portfolio (rpow : ℚ → ℚ → ℚ) (s : Scenario) :
    ∀ (fuel month : ℕ) (cash sup : ℚ),
      ∀ r ∈ runForecastAux rpow s fuel month cash sup 0,
        r.portfolioBalance = 0 ∧
        r.totalAssets = r.propertyValues + r.superBalance + r.cashBuffer := by
  intro fuel
  induction fuel with
  | zero =>
    intro month cash sup r hr
    simp [runForecastAux] at hr
  | succ n ih =>
    intro month cash sup r hr
    rw [runForecastAux] at hr
    rcases List.mem_cons.mp hr with rfl | hr2
    · constructor
      · rfl
      · show _ = _ + _ * _ + _
        simp only [forecastStep]
        ring
    · have hport : (forecastStep rpow s cash sup 0 month).portfolioBalance = 0 :=
        rfl
      rw [hport] at hr2
      exact ih (month + 1) _ _ r hr2

/-- C9: every ForecastMonth of runForecast has portfolioBalance = 0 and
totalAssets = propertyValues + superBalance + cashBuffer, and the
profile's returnPortfolioPa has no effect on the output. -/
theorem c9_portfolio_always_zero :
    (∀ (rpow : ℚ → ℚ → ℚ) (s : Scenario), ∀ r ∈ runForecast rpow s,
      r.portfolioBalance = 0 ∧
      r.totalAssets = r.propertyValues + r.superBalance + r.cashBuffer) ∧
    (∀ (rpow : ℚ → ℚ → ℚ) (s : Scenario) (x : ℚ),
      runForecast rpow
        { s with profile := { s.profile with returnPortfolioPa := x } } =
        runForecast rpow s) := by
  constructor
  · intro rpow s r hr
    exact runForecastAux_portfolio rpow s (s.horizonYears * 12) 1
      1000000 50000000 r hr
  · intro rpow s x
    unfold runForecast
    have haux : ∀ (fuel month : ℕ) (cash sup port : ℚ),
        runForecastAux rpow
          { s with profile := { s.profile with returnPortfolioPa := x } }
          fuel month cash sup port =
        runForecastAux rpow s fuel month cash sup port := by
      intro fuel
      induction fuel with
      | zero =>
        intro month cash sup port
        rfl
      | succ n ih =>
        intro month cash sup port
        rw [runForecastAux, runForecastAux]
        have hstep : forecastStep rpow
            { s with profile := { s.profile with returnPortfolioPa := x } }
            cash sup port month = forecastStep rpow s cash sup port month := rfl
        rw [hstep, ih]
    exact haux (s.horizonYears * 12) 1 1000000 50000000 0

/-- Every record of the forecast loop carries the same rental income: the
vacancy-adjusted weekly rents, with no growth factor. -/
theorem runForecastAux_rent (rpow : ℚ → ℚ → ℚ) (s : Scenario) :
    ∀ (fuel month : ℕ) (cash sup port : ℚ),
      ∀ r ∈ runForecastAux rpow s fuel month cash sup port,
        r.rentalIncome = (s.properties.map (fun property =>
          (property.rentPwCents : ℚ) * (52 - property.vacancyWeeksPa) / 12)).sum := by
  intro fuel
  induction fuel with
  | zero =>
    intro month cash sup port r hr
    simp [runForecastAux] at hr
  | succ n ih =>
    intro month cash sup port r hr
    rw [runForecastAux] at hr
    rcases List.mem_cons.mp hr with rfl | hr2
    · rfl
    · exact ih (month + 1) _ _ _ r hr2

/-- C10: rentalIncome is identical in every ForecastMonth of runForecast,
always equal to the sum over properties of rentPwCents*(52 -
vacancyWeeksPa)/12, with no growth or inflation factor. -/
theorem c10_rent_never_grows (rpow : ℚ → ℚ → ℚ) (s : Scenario) :
    (∀ r ∈ runForecast rpow s,
      r.rentalIncome = (s.properties.map (fun property =>
        (property.rentPwCents : ℚ) * (52 - property.vacancyWeeksPa) / 12)).sum) ∧
    (∀ r1 ∈ runForecast rpow s, ∀ r2 ∈ runForecast rpow s,
      r1.rentalIncome = r2.rentalIncome) := by
  have h := runForecastAux_rent rpow s (s.horizonYears * 12) 1 1000000 50000000 0
  constructor
  · intro r hr
    exact h r hr
  · intro r1 hr1 r2 hr2
    rw [h r1 hr1, h r2 hr2]

/-- Evaluation of the bracket tax at the hardcoded $120,000 salary with a
2% Medicare levy. -/
theorem afterTax_12M : calculateAfterTaxIncome 12000000 (2 / 100) = 8809500 := by
  unfold calculateAfterTaxIncome AU_TAX_BRACKETS
  simp only [taxLoop]
  norm_num [min_def]

/-- C2: the forecast aggregator hardcodes its income and balance inputs.
For the demo scenario (and for one with a different profile), month 1
reports the after-tax of a hardcoded $120,000 salary (734,125 cents per
month), hardcoded $5,000 living expenses, a 1,234,125-cent cash buffer
grown from the hardcoded $10,000, and the hardcoded $500,000 super; no
Scenario or UserProfile field carries these inputs. -/
theorem c2_hardcoded_inputs :
    ((runForecast onePow demoScn).head?.map (fun r =>
        (r.salaryAfterTax, r.livingExpenses, r.cashBuffer, r.superBalance)) =
      some (734125, 500000, 1234125, 50000000)) ∧
    ((runForecast onePow demoScnB).head?.map (fun r =>
        (r.salaryAfterTax, r.livingExpenses, r.cashBuffer, r.superBalance)) =
      some (734125, 500000, 1234125, 50000000)) := by
  constructor
  · unfold runForecast
    rw [show demoScn.horizonYears * 12 = 11 + 1 from rfl, runForecastAux]
    simp only [List.head?_cons, Option.map_some']
    simp [forecastStep, demoScn, demoProfile, onePow, afterTax_12M]
    norm_num
  · unfold runForecast
    rw [show demoScnB.horizonYears * 12 = 11 + 1 from rfl, runForecastAux]
    simp only [List.head?_cons, Option.map_some']
    simp [forecastStep, demoScnB, demoScn, demoProfileB, demoProfile, onePow,
      afterTax_12M]
    norm_num

/-- The `get?` at the last index of a non-empty list is its last element. -/
theorem get?_last_of_ne_nil (l : List ForecastMonth) (hne : l ≠ []) :
    l.get? (l.length - 1) = some (l.getLast hne) := by
  rw [List.get?_eq_getElem?, ← List.getLast?_eq_getElem?]
  exact List.getLast?_eq_getLast_of_ne_nil hne

/-- The `a || last` fallback of the summarizer, as an Option.getD. -/
theorem orElse_last (l : List ForecastMonth) (hne : l ≠ []) (i : ℕ) :
    ((l.get? i).orElse fun _ => l.get? (l.length - 1)) =
      some ((l.get? i).getD (l.getLast hne)) := by
  cases h : l.get? i with
  | none =>
    simp only [h, Option.orElse, Option.getD_none]
    exact get?_last_of_ne_nil l hne
  | some a => simp [Option.orElse]

/-- The selected snapshot is an element of the list. -/
theorem getD_last_mem (l : List ForecastMonth) (hne : l ≠ []) (i : ℕ) :
    (l.get? i).getD (l.getLast hne) ∈ l := by
  cases h : l.get? i with
  | none =>
    simp only [h, Option.getD_none]
    exact List.getLast_mem hne
  | some a =>
    simp only [h, Option.getD_some]
    exact List.get?_mem h

/-- C7 (amended): for a non-empty forecast, generateSummary selects
elements of the input sequence: index 0 for now, indices 119/239/359
falling back to the last element when out of range, and for retirement
the index floor(max 0 ((retirementAge - currentAge)*12)) falling back to
the year-30 snapshot (not the last element) when out of range. -/
theorem c7_summary_selection (forecast : List ForecastMonth)
    (retirementAge dateOfBirth nowMs : ℚ) (hne : forecast ≠ []) :
    (generateSummary forecast retirementAge dateOfBirth nowMs).now =
        forecast.head? ∧
    (generateSummary forecast retirementAge dateOfBirth nowMs).year10 =
        some ((forecast.get? 119).getD (forecast.getLast hne)) ∧
    (generateSummary forecast retirementAge dateOfBirth nowMs).year20 =
        some ((forecast.get? 239).getD (forecast.getLast hne)) ∧
    (generateSummary forecast retirementAge dateOfBirth nowMs).year30 =
        some ((forecast.get? 359).getD (forecast.getLast hne)) ∧
    (generateSummary forecast retirementAge dateOfBirth nowMs).retirement =
        some ((forecast.get? (⌊max 0 ((retirementAge -
            (nowMs - dateOfBirth) / ((365.25 : ℚ) * 24 * 60 * 60 * 1000)) *
            12)⌋).toNat).getD
          ((forecast.get? 359).getD (forecast.getLast hne))) ∧
    (∀ m : ForecastMonth,
      ((generateSummary forecast retirementAge dateOfBirth nowMs).now =
          some m ∨
        (generateSummary forecast retirementAge dateOfBirth nowMs).year10 =
          some m ∨
        (generateSummary forecast retirementAge dateOfBirth nowMs).year20 =
          some m ∨
        (generateSummary forecast retirementAge dateOfBirth nowMs).year30 =
          some m ∨
        (generateSummary forecast retirementAge dateOfBirth nowMs).retirement =
          some m) → m ∈ forecast) := by
  have h10 := orElse_last forecast hne 119
  have h20 := orElse_last forecast hne 239
  have h30 := orElse_last forecast hne 359
  have hnow : (generateSummary forecast retirementAge dateOfBirth nowMs).now =
      forecast.head? := by
    unfold generateSummary
    rw [List.get?_eq_getElem?]
    exact (List.head?_eq_getElem? _).symm
  have hy10 : (generateSummary forecast retirementAge dateOfBirth nowMs).year10 =
      some ((forecast.get? 119).getD (forecast.getLast hne)) := by
    unfold generateSummary
    exact h10
  have hy20 : (generateSummary forecast retirementAge dateOfBirth nowMs).year20 =
      some ((forecast.get? 239).getD (forecast.getLast hne)) := by
    unfold generateSummary
    exact h20
  have hy30 : (generateSummary forecast retirementAge dateOfBirth nowMs).year30 =
      some ((forecast.get? 359).getD (forecast.getLast hne)) := by
    unfold generateSummary
    exact h30
  have hret : (generateSummary forecast retirementAge dateOfBirth nowMs).retirement =
      some ((forecast.get? (⌊max 0 ((retirementAge -
          (nowMs - dateOfBirth) / ((365.25 : ℚ) * 24 * 60 * 60 * 1000)) *
          12)⌋).toNat).getD
        ((forecast.get? 359).getD (forecast.getLast hne))) := by
    unfold generateSummary
    cases h : forecast.get? (⌊max 0 ((retirementAge -
        (nowMs - dateOfBirth) / ((365.25 : ℚ) * 24 * 60 * 60 * 1000)) *
        12)⌋).toNat with
    | none => simp only [h, Option.orElse, Option.getD_none]; exact h30
    | some a =>
      rw [List.get?_eq_getElem?] at h
      simp [Option.orElse, h]
  refine ⟨hnow, hy10, hy20, hy30, hret, ?_⟩
  intro m hm
  rcases hm with h | h | h | h | h
  · rw [hnow] at h
    exact List.mem_of_mem_head? (Option.mem_def.mpr h)
  · rw [hy10] at h
    rw [Option.some.injEq] at h
    rw [← h]
    exact getD_last_mem forecast hne 119
  · rw [hy20] at h
    rw [Option.some.injEq] at h
    rw [← h]
    exact getD_last_mem forecast hne 239
  · rw [hy30] at h
    rw [Option.some.injEq] at h
    rw [← h]
    exact getD_last_mem forecast hne 359
  · rw [hret] at h
    rw [Option.some.injEq] at h
    rw [← h]
    cases h2 : forecast.get? (⌊max 0 ((retirementAge -
        (nowMs - dateOfBirth) / ((365.25 : ℚ) * 24 * 60 * 60 * 1000)) *
        12)⌋).toNat with
    | none =>
      simp only [h2, Option.getD_none]
      exact getD_last_mem forecast hne 359
    | some a =>
      simp only [h2, Option.getD_some]
      exact List.get?_mem h2

/-- Witness for the amended C7 selection theorem at a concrete forecast. -/
theorem c7_summary_selection_witness :
    wForecast ≠ [] ∧
    (generateSummary wForecast 65 0 0).now = wForecast.head? :=
  ⟨by simp [wForecast], (c7_summary_selection wForecast 65 0 0
    (by simp [wForecast])).1⟩

/-- C7 counterexample: for a 361-record forecast whose retirement index
1200 exceeds the sequence, generateSummary returns the record at index
359 (the year-30 snapshot), not the record at the last available index
360, refuting the claim that the retirement snapshot is clamped to the
last available index. -/
theorem c7_retirement_not_clamped_to_last :
    (generateSummary demoForecast 100 0 0).retirement = some (dummyFM 359) ∧
    demoForecast.get? (demoForecast.length - 1) = some (dummyFM 360) ∧
    dummyFM 359 ≠ dummyFM 360 := by
  have hlen : demoForecast.length = 361 := by simp [demoForecast]
  have h359 : demoForecast.get? 359 = some (dummyFM 359) := by
    rw [List.get?_eq_getElem?]
    simp [demoForecast, List.getElem?_range (show 359 < 361 by norm_num)]
  have h360 : demoForecast.get? 360 = some (dummyFM 360) := by
    rw [List.get?_eq_getElem?]
    simp [demoForecast, List.getElem?_range (show 360 < 361 by norm_num)]
  have h1200 : demoForecast.get? 1200 = none := by
    rw [List.get?_eq_none, hlen]
    norm_num
  have hidx : (⌊max (0 : ℚ) (((100 : ℚ) - ((0 : ℚ) - 0) /
      ((365.25 : ℚ) * 24 * 60 * 60 * 1000)) * 12)⌋).toNat = 1200 := by
    rw [show ((100 : ℚ) - ((0 : ℚ) - 0) /
      ((365.25 : ℚ) * 24 * 60 * 60 * 1000)) * 12 = 1200 from by norm_num]
    rw [max_eq_right (by norm_num : (0 : ℚ) ≤ 1200)]
    rw [show (1200 : ℚ) = ((1200 : ℤ) : ℚ) from by norm_num, Int.floor_intCast]
    rfl
  refine ⟨?_, ?_, ?_⟩
  · show ((demoForecast.get? (⌊max 0 (((100 : ℚ) -
        ((0 : ℚ) - 0) / ((365.25 : ℚ) * 24 * 60 * 60 * 1000)) * 12)⌋).toNat).orElse
      fun _ => (demoForecast.get? 359).orElse
        fun _ => demoForecast.get? (demoForecast.length - 1)) =
      some (dummyFM 359)
    rw [hidx, h1200, h359]
    simp [Option.orElse]
  · rw [hlen]
    exact h360
  · simp [dummyFM]
